import Mathlib

/-!
Verification of the stt-assistant daemon core (src/stt-daemon/src/main.rs and
src/stt-daemon/src/socket.rs) against its natural-language specification.

The session event loop of `main` is embedded shallowly: one loop iteration is
`stepIter`, split into the command arm (`handleCommand`, lines 326-406), the
audio drain with the auto-stop check (`drainChunk`, lines 409-440) and the
inline Processing block (`processBlock`, lines 443-468).  Audio samples are
`f32` in the source; their values never influence control flow, so the sample
type is an arbitrary `α`.  The whisper backend and its constructor are
external collaborators and enter as oracles in `Env`; a constructed backend is
identified by a `Nat`.  Channel traffic (oneshot sends, the auto-stop token,
calls into the backend) is recorded as a list of `Ev` events.
-/

/-- The session states of the daemon (`enum State`, main.rs lines 63-68). -/
inductive State where
  | Idle
  | Recording
  | Processing
deriving DecidableEq, Repr

/-- The daemon configuration (`struct SttConfig`): model path, language and the
recording cap in seconds. -/
structure SttConfig where
  model_path : String
  language : String
  max_recording_seconds : Nat
deriving DecidableEq, Repr

/-- The status snapshot sent back for a STATUS request
(`struct StatusResponse`, socket.rs lines 9-17). -/
structure StatusResponse where
  active : Bool
  pid : Nat
  model_path : String
  language : String
  max_recording_seconds : Nat
  state : String
deriving DecidableEq, Repr

/-- Observable events of one loop iteration: oneshot sends to clients, a
dropped (never-resolved) response slot, the auto-stop notification token, and
the calls made into the transcription backend and its constructor. -/
inductive Ev (α : Type) where
  | respStop (text : String)
  | respStatus (st : StatusResponse)
  | respReloadOk
  | respReloadErr (msg : String)
  | slotDropped
  | autoStop
  | transcribeCalled (samples : List α) (lang : String)
  | constructorCalled (path : String)
deriving DecidableEq, Repr

/-- The mutable state owned by the event loop of `main` (lines 315-320):
session state, the linear recording buffer, whether a Stop response slot is
attached (`response_tx_opt.is_some()`), the computed-but-undelivered result,
the current config, and the identity of the live transcription backend. -/
structure Session (α : Type) where
  state : State
  audio_buffer : List α
  response_attached : Bool
  pending_result : Option String
  config : SttConfig
  transcriber : Nat
deriving DecidableEq, Repr

/-- External collaborators as oracles: `newBackend` models
`Transcriber::new(model_path)` (returns a backend identity or an error
message), `transcribe` models `Transcriber::transcribe(samples, language)`,
and `pid` models `std::process::id()`. -/
structure Env (α : Type) where
  newBackend : String → Except String Nat
  transcribe : Nat → List α → String → Except String String
  pid : Nat

/-- Rendering of a state for the status snapshot (main.rs lines 367-371). -/
def stateName : State → String
  | State.Idle => "Idle"
  | State.Recording => "Recording"
  | State.Processing => "Processing"

/-- The snapshot built for `Command::GetStatus` (main.rs lines 361-372). -/
def statusSnapshot {α : Type} (env : Env α) (s : Session α) : StatusResponse :=
  { active := true
    pid := env.pid
    model_path := s.config.model_path
    language := s.config.language
    max_recording_seconds := s.config.max_recording_seconds
    state := stateName s.state }

/-- Commands dequeued by the event loop (`enum Command`; the `ReloadConfig`
variant and its `SttConfig` payload are consumed by main.rs lines 375-405). -/
inductive Cmd where
  | start
  | stop
  | cancel
  | getStatus
  | reloadConfig (new_config : SttConfig)
deriving DecidableEq, Repr

/-- The command arm of the event loop (main.rs lines 326-406).  Overwriting or
discarding a still-attached response slot drops its sender unresolved, which
is recorded as `Ev.slotDropped`; a `send` on a slot is recorded as the
corresponding `Ev.resp*` event. -/
def handleCommand {α : Type} (env : Env α) (c : Cmd) (s : Session α) :
    Session α × List (Ev α) :=
  match c with
  | Cmd.start =>
      ({ s with state := State.Recording, audio_buffer := [],
                pending_result := none }, [])
  | Cmd.stop =>
      match s.state with
      | State.Recording =>
          ({ s with state := State.Processing, response_attached := true },
           if s.response_attached then [Ev.slotDropped] else [])
      | State.Processing =>
          ({ s with response_attached := true },
           if s.response_attached then [Ev.slotDropped] else [])
      | State.Idle =>
          match s.pending_result with
          | some res => ({ s with pending_result := none }, [Ev.respStop res])
          | none => (s, [Ev.respStop ""])
  | Cmd.cancel =>
      ({ s with state := State.Idle, audio_buffer := [],
                response_attached := false, pending_result := none },
       if s.response_attached then [Ev.slotDropped] else [])
  | Cmd.getStatus =>
      (s, [Ev.respStatus (statusSnapshot env s)])
  | Cmd.reloadConfig new_config =>
      if new_config.model_path = s.config.model_path then
        ({ s with config := new_config }, [Ev.respReloadOk])
      else
        match env.newBackend new_config.model_path with
        | Except.ok b =>
            ({ s with config := new_config, transcriber := b },
             [Ev.constructorCalled new_config.model_path, Ev.respReloadOk])
        | Except.error e =>
            ({ s with config := new_config },
             [Ev.constructorCalled new_config.model_path,
              Ev.respReloadErr ("Failed to load model: " ++ e)])

/-- The audio-drain step for one popped chunk (main.rs lines 409-440): while
Recording, the chunk is appended to the buffer unless the buffer already holds
`16000 * max_recording_seconds` samples, in which case the session
force-transitions to Processing and the auto-stop notification is spawned.
Outside Recording the chunk is popped and discarded. -/
def drainChunk {α : Type} (chunk : List α) (s : Session α) :
    Session α × List (Ev α) :=
  if s.state = State.Recording then
    if s.audio_buffer.length < 16000 * s.config.max_recording_seconds then
      ({ s with audio_buffer := s.audio_buffer ++ chunk }, [])
    else
      ({ s with state := State.Processing }, [Ev.autoStop])
  else (s, [])

/-- The text computed by the Processing block (main.rs lines 446-457): the
empty string when the buffer is empty (transcription skipped), the backend
result on success, and an `ERROR: `-tagged string on failure. -/
def processedText {α : Type} (env : Env α) (s : Session α) : String :=
  if s.audio_buffer.isEmpty then ""
  else
    match env.transcribe s.transcriber s.audio_buffer s.config.language with
    | Except.ok t => t
    | Except.error e => "ERROR: " ++ e

/-- The Processing block (main.rs lines 443-468): when the state is
Processing, transcription runs (unless the buffer is empty), the outcome is
sent on the attached slot if one exists and otherwise stored in
`pending_result`, and the session returns to Idle with a cleared buffer. -/
def processBlock {α : Type} (env : Env α) (s : Session α) :
    Session α × List (Ev α) :=
  if s.state = State.Processing then
    let callEvs : List (Ev α) :=
      if s.audio_buffer.isEmpty then []
      else [Ev.transcribeCalled s.audio_buffer s.config.language]
    let text := processedText env s
    if s.response_attached then
      ({ s with state := State.Idle, audio_buffer := [],
                response_attached := false, pending_result := none },
       callEvs ++ [Ev.respStop text])
    else
      ({ s with state := State.Idle, audio_buffer := [],
                pending_result := some text }, callEvs)
  else (s, [])

/-- The non-blocking `try_recv` at the top of the loop (main.rs line 326): a
dequeued command is handled, otherwise the session is untouched. -/
def cmdPhase {α : Type} (env : Env α) (cmd : Option Cmd) (s : Session α) :
    Session α × List (Ev α) :=
  match cmd with
  | some c => handleCommand env c s
  | none => (s, [])

/-- The audio phase of one iteration (main.rs lines 409-440): when at least
one chunk is available it is popped and drained, otherwise the loop sleeps. -/
def drainPhase {α : Type} (chunk : Option (List α)) (s : Session α) :
    Session α × List (Ev α) :=
  match chunk with
  | some ch => drainChunk ch s
  | none => (s, [])

/-- One iteration of the event loop (main.rs lines 324-469): an optional
dequeued command, then the audio drain when at least one chunk is available,
then the Processing block, all in the same iteration. -/
def stepIter {α : Type} (env : Env α) (cmd : Option Cmd) (chunk : Option (List α))
    (s : Session α) : Session α × List (Ev α) :=
  let r1 := cmdPhase env cmd s
  let r2 := drainPhase chunk r1.1
  let r3 := processBlock env r2.1
  (r3.1, r1.2 ++ r2.2 ++ r3.2)

/-- The loop state folded over a list of per-iteration inputs. -/
def runIters {α : Type} (env : Env α)
    (inputs : List (Option Cmd × Option (List α))) (s : Session α) : Session α :=
  inputs.foldl (fun t i => (stepIter env i.1 i.2 t).1) s

/-- The loop state at startup (main.rs lines 315-320): Idle, empty buffer, no
attached slot, no pending result. -/
def initSession {α : Type} (c0 : SttConfig) (t0 : Nat) : Session α :=
  { state := State.Idle
    audio_buffer := []
    response_attached := false
    pending_result := none
    config := c0
    transcriber := t0 }

/-- Recognizer for the auto-stop notification event. -/
def isAutoStopEv {α : Type} : Ev α → Bool
  | Ev.autoStop => true
  | _ => false

/-- Recognizer for a call into the transcription backend. -/
def isTranscribeCall {α : Type} : Ev α → Bool
  | Ev.transcribeCalled _ _ => true
  | _ => false

/-- Recognizer for a call into the backend constructor. -/
def isConstructorCall {α : Type} : Ev α → Bool
  | Ev.constructorCalled _ => true
  | _ => false

/-- Character-level take on strings (a Lean 4.14 `String` wraps a `List Char`). -/
def strTake (s : String) (n : Nat) : String := ⟨s.data.take n⟩

/-- Character-level drop on strings. -/
def strDrop (s : String) (n : Nat) : String := ⟨s.data.drop n⟩

/-- How the router classifies one trimmed request line. -/
inductive RouterDispatch where
  | start
  | stop
  | cancel
  | status
  | reload (payload : String)
  | unknown
deriving DecidableEq, Repr

/-- Modelled from the spec: the classification of a request line by
`SocketServer::run`.  The exact matches on `START`, `STOP`, `CANCEL` and
`STATUS` and the catch-all unknown arm are socket.rs lines 68-131; the
`REFRESH <serialized config>` arm is absent from the socket.rs snapshot under
src/ (main.rs consumes `Command::ReloadConfig` and `SttConfig`, which that
snapshot does not define), so it is modelled from the spec: a line of the
form `REFRESH <serialized config>` dispatches as ReloadConfig with the
remainder of the line as the serialized-config payload. -/
def routeRequest (s : String) : RouterDispatch :=
  if s = "START" then RouterDispatch.start
  else if s = "STOP" then RouterDispatch.stop
  else if s = "CANCEL" then RouterDispatch.cancel
  else if s = "STATUS" then RouterDispatch.status
  else if strTake s 8 = "REFRESH " then RouterDispatch.reload (strDrop s 8)
  else RouterDispatch.unknown

/-- The response the router writes for a STOP request once the oneshot
resolves (socket.rs lines 90-97): the resolved text, or — when the session
dropped the slot without resolving it (`rx.await` returns `Err`) — the
literal cancellation error.  `none` models the dropped sender. -/
def routerStopReply : Option String → String
  | some text => text
  | none => "ERROR: Transcription cancelled or failed"

/-- Modelled from the spec: the response written for a REFRESH request, from
the resolution of its response slot — `ok` on success, the error text on
failure (the REFRESH arm is absent from the socket.rs snapshot under src/). -/
def routerReloadReply : Except String Unit → String
  | Except.ok _ => "ok"
  | Except.error e => e

/-- The literal response for an unrecognized command (socket.rs line 130). -/
def unknownReply : String := "ERROR: Unknown command"

/-- The invariant claimed to hold at the start of every event-loop iteration:
the state is never Processing and no response slot is attached. -/
def LoopInv {α : Type} (s : Session α) : Prop :=
  s.state ≠ State.Processing ∧ s.response_attached = false

/-- The weaker invariant holding between the command arm and the Processing
block of one iteration: an attached slot forces the Processing state. -/
def MidInv {α : Type} (s : Session α) : Prop :=
  s.response_attached = true → s.state = State.Processing

/-- A concrete environment whose backend constructor succeeds and whose
transcription returns a fixed text. -/
def env0 : Env Nat :=
  { newBackend := fun _ => Except.ok 1
    transcribe := fun _ _ _ => Except.ok "hello world"
    pid := 42 }

/-- A concrete environment whose backend constructor always fails. -/
def envBad : Env Nat :=
  { newBackend := fun p => Except.error ("Model file not found: " ++ p)
    transcribe := fun _ _ _ => Except.ok "hello world"
    pid := 42 }

/-- A concrete configuration pointing at model `a.bin`. -/
def cfgA : SttConfig :=
  { model_path := "a.bin", language := "es", max_recording_seconds := 600 }

/-- A concrete configuration pointing at model `b.bin`. -/
def cfgB : SttConfig :=
  { model_path := "b.bin", language := "es", max_recording_seconds := 600 }

/-- A concrete idle session running config `cfgA` with backend 7. -/
def idleSession0 : Session Nat := initSession cfgA 7

/-- A concrete session that has just entered Processing with an empty
segment and no attached request. -/
def procSession0 : Session Nat :=
  { state := State.Processing
    audio_buffer := []
    response_attached := false
    pending_result := none
    config := cfgA
    transcriber := 1 }

/-- A concrete session in Processing with a non-empty segment and an
attached request. -/
def procSession1 : Session Nat :=
  { state := State.Processing
    audio_buffer := [1, 2, 3]
    response_attached := true
    pending_result := none
    config := cfgA
    transcriber := 1 }

/-- A concrete recording session whose buffer has reached the cap for
`max_recording_seconds = 0`. -/
def recSession0 : Session Nat :=
  { state := State.Recording
    audio_buffer := []
    response_attached := false
    pending_result := none
    config := { model_path := "a.bin", language := "es", max_recording_seconds := 0 }
    transcriber := 1 }

/-! ## Theorems -/

/-- C8: processing a Start command in any state leaves the session Recording
with empty segment and empty pending result, emits nothing, and a second
consecutive Start yields exactly the same session and events as one Start. -/
theorem start_idempotent {α : Type} (env : Env α) (s : Session α) :
    (handleCommand env Cmd.start s).1.state = State.Recording ∧
    (handleCommand env Cmd.start s).1.audio_buffer = [] ∧
    (handleCommand env Cmd.start s).1.pending_result = none ∧
    (handleCommand env Cmd.start s).2 = [] ∧
    handleCommand env Cmd.start ((handleCommand env Cmd.start s).1) =
      handleCommand env Cmd.start s := by
  simp [handleCommand]

/-- C3: a Stop processed while Idle with a stored pending result sends exactly
that text, clears the store, stays Idle, and an immediately following Stop
(still Idle, nothing recomputed) sends the empty string — the stored result
is never delivered twice. -/
theorem stop_idle_delivers_pending_once {α : Type} (env : Env α) (s : Session α)
    (r : String) (hst : s.state = State.Idle) (hp : s.pending_result = some r) :
    (handleCommand env Cmd.stop s).2 = [Ev.respStop r] ∧
    (handleCommand env Cmd.stop s).1.state = State.Idle ∧
    (handleCommand env Cmd.stop s).1.pending_result = none ∧
    (handleCommand env Cmd.stop ((handleCommand env Cmd.stop s).1)).2 =
      [Ev.respStop ""] ∧
    (handleCommand env Cmd.stop ((handleCommand env Cmd.stop s).1)).1.pending_result
      = none := by
  simp [handleCommand, hst, hp]

/-- Witness for C3 at a concrete idle session holding the result `hola`. -/
theorem stop_idle_delivers_pending_once_witness :
    (handleCommand env0 Cmd.stop
      { idleSession0 with pending_result := some "hola" }).2 =
        [Ev.respStop "hola"] :=
  (stop_idle_delivers_pending_once env0
    { idleSession0 with pending_result := some "hola" } "hola" rfl rfl).1

/-- C4: a Cancel in any state forces Idle with empty segment, empty pending
result and no attached slot; when a slot was attached, the session drops it
unresolved (it sends no result), and the router converts the dropped slot
into the literal cancellation error response, so the client gets a reply. -/
theorem cancel_clears_and_resolves {α : Type} (env : Env α) (s : Session α) :
    (handleCommand env Cmd.cancel s).1.state = State.Idle ∧
    (handleCommand env Cmd.cancel s).1.audio_buffer = [] ∧
    (handleCommand env Cmd.cancel s).1.pending_result = none ∧
    (handleCommand env Cmd.cancel s).1.response_attached = false ∧
    (s.response_attached = true →
      (handleCommand env Cmd.cancel s).2 = [Ev.slotDropped] ∧
      routerStopReply none = "ERROR: Transcription cancelled or failed") := by
  refine ⟨rfl, rfl, rfl, rfl, fun h => ?_⟩
  simp [handleCommand, h, routerStopReply]

/-- Witness for C4 at a concrete Processing session with an attached slot. -/
theorem cancel_clears_and_resolves_witness :
    (handleCommand env0 Cmd.cancel procSession1).2 = [Ev.slotDropped] ∧
    routerStopReply none = "ERROR: Transcription cancelled or failed" :=
  (cancel_clears_and_resolves env0 procSession1).2.2.2.2 rfl

/-- C9: a ReloadConfig whose new model path equals the current one swaps the
config, answers ok, never calls the backend constructor, and keeps the
backend. -/
theorem reload_same_path_no_reconstruct {α : Type} (env : Env α) (s : Session α)
    (new_config : SttConfig)
    (heq : new_config.model_path = s.config.model_path) :
    handleCommand env (Cmd.reloadConfig new_config) s =
      ({ s with config := new_config }, [Ev.respReloadOk]) ∧
    ((handleCommand env (Cmd.reloadConfig new_config) s).2.countP
      isConstructorCall) = 0 ∧
    (handleCommand env (Cmd.reloadConfig new_config) s).1.transcriber =
      s.transcriber := by
  simp [handleCommand, heq, isConstructorCall]

/-- Witness for C9: reloading `cfgA` over a session already on `cfgA`. -/
theorem reload_same_path_no_reconstruct_witness :
    handleCommand env0 (Cmd.reloadConfig cfgA) idleSession0 =
      ({ idleSession0 with config := cfgA }, [Ev.respReloadOk]) :=
  (reload_same_path_no_reconstruct env0 idleSession0 cfgA rfl).1

/-- C1 counterexample: with the current config on `a.bin`, a ReloadConfig to
`b.bin` whose backend construction fails leaves the session's config equal to
the new config, not to the old one — the config is not rolled back. -/
theorem reload_failure_counterexample :
    (handleCommand envBad (Cmd.reloadConfig cfgB) idleSession0).1.config = cfgB
    ∧ cfgB ≠ idleSession0.config := by
  constructor
  · simp [handleCommand, envBad, cfgB, cfgA, idleSession0, initSession]
  · simp [cfgB, cfgA, idleSession0, initSession]

/-- C1 amended: when the new model path differs and backend construction
fails, the backend is unchanged, the session state is unchanged, the error is
sent to the caller — but the config has already been replaced by the new
config (the swap is not rolled back on failure). -/
theorem reload_failure_keeps_backend {α : Type} (env : Env α) (s : Session α)
    (new_config : SttConfig) (e : String)
    (hne : new_config.model_path ≠ s.config.model_path)
    (herr : env.newBackend new_config.model_path = Except.error e) :
    (handleCommand env (Cmd.reloadConfig new_config) s).1.transcriber =
      s.transcriber ∧
    (handleCommand env (Cmd.reloadConfig new_config) s).1.state = s.state ∧
    (handleCommand env (Cmd.reloadConfig new_config) s).1.config = new_config ∧
    Ev.respReloadErr ("Failed to load model: " ++ e) ∈
      (handleCommand env (Cmd.reloadConfig new_config) s).2 := by
  simp [handleCommand, hne, herr]

/-- Witness for the amended C1 at the concrete failing reload. -/
theorem reload_failure_keeps_backend_witness :
    (handleCommand envBad (Cmd.reloadConfig cfgB) idleSession0).1.transcriber =
      idleSession0.transcriber :=
  (reload_failure_keeps_backend envBad idleSession0 cfgB
    "Model file not found: b.bin" (by decide) rfl).1

/-- C5: once the Processing block runs, the session is Idle with an empty
segment regardless of the transcription outcome; the computed text — the
backend result on success, an `ERROR: `-tagged string on failure — is sent to
the attached request when one exists and otherwise stored in
`pending_result`, never discarded. -/
theorem processing_resolves_and_resets {α : Type} (env : Env α) (s : Session α)
    (hst : s.state = State.Processing) :
    (processBlock env s).1.state = State.Idle ∧
    (processBlock env s).1.audio_buffer = [] ∧
    (s.response_attached = true →
      Ev.respStop (processedText env s) ∈ (processBlock env s).2 ∧
      (processBlock env s).1.pending_result = none) ∧
    (s.response_attached = false →
      (processBlock env s).1.pending_result = some (processedText env s)) ∧
    (∀ t, s.audio_buffer ≠ [] →
      env.transcribe s.transcriber s.audio_buffer s.config.language =
        Except.ok t →
      processedText env s = t) ∧
    (∀ e, s.audio_buffer ≠ [] →
      env.transcribe s.transcriber s.audio_buffer s.config.language =
        Except.error e →
      processedText env s = "ERROR: " ++ e) := by
  refine ⟨?_, ?_, ?_, ?_, ?_, ?_⟩
  · by_cases hr : s.response_attached <;> simp [processBlock, hst, hr]
  · by_cases hr : s.response_attached <;> simp [processBlock, hst, hr]
  · intro hr
    simp [processBlock, hst, hr]
  · intro hr
    simp [processBlock, hst, hr]
  · intro t hne hok
    simp [processedText, hne, hok]
  · intro e hne herr
    simp [processedText, hne, herr]

/-- Witness for C5 at a concrete attached Processing session. -/
theorem processing_resolves_and_resets_witness :
    Ev.respStop (processedText env0 procSession1) ∈
      (processBlock env0 procSession1).2 ∧
    (processBlock env0 procSession1).1.pending_result = none :=
  (processing_resolves_and_resets env0 procSession1 rfl).2.2.1 rfl

/-- C6 counterexample: for an entry into Processing with an empty segment the
backend is never called — the event trace of the Processing block contains no
transcription call, refuting "invoked exactly once ... including when the
segment is empty". -/
theorem transcribe_not_called_on_empty_segment :
    ¬ ((processBlock env0 procSession0).2.countP isTranscribeCall = 1) := by
  decide

/-- C6 amended: per entry into Processing the backend is called exactly once
with the accumulated segment and the configured language when the segment is
non-empty; with an empty segment the call is skipped and the empty string is
used as the result. -/
theorem transcribe_once_unless_empty {α : Type} (env : Env α) (s : Session α)
    (hst : s.state = State.Processing) :
    (s.audio_buffer ≠ [] →
      ((processBlock env s).2.countP isTranscribeCall) = 1 ∧
      Ev.transcribeCalled s.audio_buffer s.config.language ∈
        (processBlock env s).2) ∧
    (s.audio_buffer = [] →
      ((processBlock env s).2.countP isTranscribeCall) = 0 ∧
      processedText env s = "") := by
  constructor
  · intro hne
    by_cases hr : s.response_attached <;>
      simp [processBlock, hst, hr, hne, isTranscribeCall]
  · intro hemp
    by_cases hr : s.response_attached <;>
      simp [processBlock, processedText, hst, hr, hemp, isTranscribeCall]

/-- Witness for the amended C6 at a concrete non-empty Processing session. -/
theorem transcribe_once_unless_empty_witness :
    ((processBlock env0 procSession1).2.countP isTranscribeCall) = 1 ∧
    Ev.transcribeCalled procSession1.audio_buffer
      procSession1.config.language ∈ (processBlock env0 procSession1).2 :=
  (transcribe_once_unless_empty env0 procSession1 rfl).1 (by decide)

/-- C7: for a Recording session with no attached request, a drained chunk is
appended while the segment is below the `16000 * max_recording_seconds`
sample cap; once the segment has reached the cap the drain force-transitions
to Processing emitting the auto-stop token, the iteration emits it exactly
once, and — with no attached request — the iteration ends Idle with the
transcript stored in `pending_result`. -/
theorem auto_stop_at_cap {α : Type} (env : Env α) (s : Session α)
    (chunk : List α) (hst : s.state = State.Recording)
    (hatt : s.response_attached = false) :
    (s.audio_buffer.length < 16000 * s.config.max_recording_seconds →
      drainChunk chunk s =
        ({ s with audio_buffer := s.audio_buffer ++ chunk }, [])) ∧
    (16000 * s.config.max_recording_seconds ≤ s.audio_buffer.length →
      (drainChunk chunk s).1.state = State.Processing ∧
      (drainChunk chunk s).2 = [Ev.autoStop] ∧
      ((stepIter env none (some chunk) s).2.countP isAutoStopEv) = 1 ∧
      (stepIter env none (some chunk) s).1.state = State.Idle ∧
      (stepIter env none (some chunk) s).1.pending_result =
        some (processedText env s)) := by
  constructor
  · intro hlen
    simp [drainChunk, hst, hlen]
  · intro hcap
    have hnl : ¬ s.audio_buffer.length < 16000 * s.config.max_recording_seconds :=
      not_lt.mpr hcap
    have hd : drainChunk chunk s =
        ({ s with state := State.Processing }, [Ev.autoStop]) := by
      simp [drainChunk, hst, hnl]
    refine ⟨by simp [hd], by simp [hd], ?_, ?_, ?_⟩
    · by_cases hemp : s.audio_buffer.isEmpty <;>
        simp [stepIter, cmdPhase, drainPhase, hd, processBlock, hatt, hemp,
              isAutoStopEv]
    · simp [stepIter, cmdPhase, drainPhase, hd, processBlock, hatt]
    · simp only [stepIter, cmdPhase, drainPhase, hd]
      simp [processBlock, processedText, hatt]

/-- Witness for C7: with `max_recording_seconds = 0` the cap is already
reached, so one drained chunk auto-stops the session. -/
theorem auto_stop_at_cap_witness :
    (drainChunk [5, 6] recSession0).1.state = State.Processing ∧
    (drainChunk [5, 6] recSession0).2 = [Ev.autoStop] ∧
    ((stepIter env0 none (some [5, 6]) recSession0).2.countP isAutoStopEv) = 1 ∧
    (stepIter env0 none (some [5, 6]) recSession0).1.state = State.Idle ∧
    (stepIter env0 none (some [5, 6]) recSession0).1.pending_result =
      some (processedText env0 recSession0) :=
  (auto_stop_at_cap env0 recSession0 [5, 6] rfl rfl).2 (by decide)

/-- After the command arm of an iteration that started with no attached slot,
an attached slot forces the Processing state. -/
theorem handleCommand_midInv {α : Type} (env : Env α) (c : Cmd) (s : Session α)
    (h : s.response_attached = false) : MidInv (handleCommand env c s).1 := by
  unfold MidInv
  cases c with
  | start => simp [handleCommand, h]
  | stop =>
      cases hst : s.state with
      | Idle => cases hp : s.pending_result <;> simp [handleCommand, hst, hp, h]
      | Recording => simp [handleCommand, hst]
      | Processing => simp [handleCommand, hst]
  | cancel => simp [handleCommand]
  | getStatus => simp [handleCommand, h]
  | reloadConfig nc =>
      by_cases he : nc.model_path = s.config.model_path
      · simp [handleCommand, he, h]
      · cases hb : env.newBackend nc.model_path <;>
          simp [handleCommand, he, hb, h]

/-- The audio drain preserves the mid-iteration invariant. -/
theorem drainChunk_midInv {α : Type} (chunk : List α) (s : Session α)
    (h : MidInv s) : MidInv (drainChunk chunk s).1 := by
  unfold MidInv at h ⊢
  by_cases hst : s.state = State.Recording
  · have hr : s.response_attached = false := by
      cases hr2 : s.response_attached
      · rfl
      · have hp := h hr2
        rw [hst] at hp
        exact State.noConfusion hp
    by_cases hlen :
        s.audio_buffer.length < 16000 * s.config.max_recording_seconds
    · simp [drainChunk, hst, hlen, hr]
    · simp [drainChunk, hst, hlen]
  · simpa [drainChunk, hst] using h

/-- The Processing block at the end of an iteration restores the loop
invariant from the mid-iteration invariant. -/
theorem processBlock_loopInv {α : Type} (env : Env α) (s : Session α)
    (h : MidInv s) : LoopInv (processBlock env s).1 := by
  unfold MidInv at h
  unfold LoopInv
  by_cases hst : s.state = State.Processing
  · by_cases hr : s.response_attached <;> simp [processBlock, hst, hr]
  · have hr : s.response_attached = false := by
      cases hr2 : s.response_attached
      · rfl
      · exact absurd (h hr2) hst
    simp [processBlock, hst, hr]

/-- One full loop iteration preserves the loop invariant. -/
theorem stepIter_loopInv {α : Type} (env : Env α) (cmd : Option Cmd)
    (chunk : Option (List α)) (s : Session α) (h : LoopInv s) :
    LoopInv (stepIter env cmd chunk s).1 := by
  have h1 : MidInv (cmdPhase env cmd s).1 := by
    cases cmd with
    | none =>
        intro hh
        rw [cmdPhase] at hh
        rw [h.2] at hh
        exact Bool.noConfusion hh
    | some c => exact handleCommand_midInv env c s h.2
  have h2 : MidInv (drainPhase chunk (cmdPhase env cmd s).1).1 := by
    cases chunk with
    | none => exact h1
    | some ch => exact drainChunk_midInv ch _ h1
  exact processBlock_loopInv env _ h2

/-- Any number of loop iterations preserves the loop invariant. -/
theorem runIters_loopInv {α : Type} (env : Env α)
    (inputs : List (Option Cmd × Option (List α))) (s : Session α)
    (h : LoopInv s) : LoopInv (runIters env inputs s) := by
  induction inputs generalizing s with
  | nil => exact h
  | cons i t ih =>
      have := stepIter_loopInv env i.1 i.2 s h
      simpa [runIters] using ih _ this

/-- C10: starting from the daemon's initial loop state, after any sequence of
loop iterations the state at the iteration boundary is never Processing and
no response slot is attached; consequently, for any session satisfying this
invariant, a GetStatus snapshot never reports `Processing` and the
Stop-while-Processing arm is unreachable (a Stop leaves the session in
Processing exactly when it found it Recording). -/
theorem event_loop_invariant {α : Type} (env : Env α) (c0 : SttConfig)
    (t0 : Nat) (inputs : List (Option Cmd × Option (List α))) :
    LoopInv (runIters env inputs (initSession c0 t0)) ∧
    (∀ s : Session α, LoopInv s →
      (statusSnapshot env s).state ≠ "Processing" ∧
      ((handleCommand env Cmd.stop s).1.state = State.Processing ↔
        s.state = State.Recording)) := by
  constructor
  · exact runIters_loopInv env inputs _ ⟨by simp [initSession], rfl⟩
  · intro s hs
    constructor
    · show stateName s.state ≠ "Processing"
      cases hst : s.state with
      | Idle => decide
      | Recording => decide
      | Processing => exact absurd hst hs.1
    · cases hst : s.state with
      | Idle => cases hp : s.pending_result <;> simp [handleCommand, hst, hp]
      | Recording => simp [handleCommand, hst]
      | Processing => exact absurd hst hs.1

/-- Witness for C10: a concrete three-iteration run (Start, Stop with audio,
then a quiet tick) ends at the invariant, and the status snapshot of the
initial session does not report Processing. -/
theorem event_loop_invariant_witness :
    LoopInv (runIters env0
      [(some Cmd.start, some [1, 2]), (some Cmd.stop, some [3]), (none, none)]
      (initSession cfgA 7)) ∧
    (statusSnapshot env0 (initSession cfgA 7 : Session Nat)).state ≠
      "Processing" :=
  ⟨(event_loop_invariant env0 cfgA 7
      [(some Cmd.start, some [1, 2]), (some Cmd.stop, some [3]), (none, none)]).1,
   ((event_loop_invariant env0 cfgA 7 []).2 (initSession cfgA 7)
      ⟨by decide, rfl⟩).1⟩

/-- Taking eight characters off a string that begins with `REFRESH ` yields
exactly that literal. -/
theorem strTake_refresh (p : String) : strTake ("REFRESH " ++ p) 8 = "REFRESH " := by
  cases p with
  | mk l =>
      show String.mk ((("REFRESH ").data ++ l).take 8) = _
      rw [List.take_left' (by rfl)]

/-- Dropping eight characters off a string that begins with `REFRESH ` yields
the payload after the literal. -/
theorem strDrop_refresh (p : String) : strDrop ("REFRESH " ++ p) 8 = p := by
  cases p with
  | mk l =>
      show String.mk ((("REFRESH ").data ++ l).drop 8) = _
      rw [List.drop_left' (by rfl)]

/-- A string that begins with the eight characters `REFRESH ` differs from
every string shorter than eight characters. -/
theorem refresh_append_ne (p t : String) (ht : t.length < 8) :
    ("REFRESH " ++ p) ≠ t := by
  intro h
  have h2 := congrArg String.length h
  rw [String.length_append] at h2
  have e1 : ("REFRESH ").length = 8 := rfl
  omega

/-- C2: a request line of the form `REFRESH <payload>` dispatches as a
ReloadConfig command carrying the payload (never as an unknown command); the
reply to a dispatched reload is `ok` on success and the error text on
failure; and a request dispatches as unknown exactly when it is none of
START, STOP, CANCEL, STATUS and does not begin with `REFRESH `. -/
theorem refresh_routes_as_reload :
    (∀ payload : String,
      routeRequest ("REFRESH " ++ payload) = RouterDispatch.reload payload) ∧
    routerReloadReply (Except.ok ()) = "ok" ∧
    (∀ e : String, routerReloadReply (Except.error e) = e) ∧
    unknownReply = "ERROR: Unknown command" ∧
    (∀ s : String, routeRequest s = RouterDispatch.unknown ↔
      (s ≠ "START" ∧ s ≠ "STOP" ∧ s ≠ "CANCEL" ∧ s ≠ "STATUS" ∧
       strTake s 8 ≠ "REFRESH ")) := by
  refine ⟨?_, rfl, fun _ => rfl, rfl, ?_⟩
  · intro p
    have h1 : ("REFRESH " ++ p) ≠ "START" := refresh_append_ne p "START" (by decide)
    have h2 : ("REFRESH " ++ p) ≠ "STOP" := refresh_append_ne p "STOP" (by decide)
    have h3 : ("REFRESH " ++ p) ≠ "CANCEL" := refresh_append_ne p "CANCEL" (by decide)
    have h4 : ("REFRESH " ++ p) ≠ "STATUS" := refresh_append_ne p "STATUS" (by decide)
    have h5 := strTake_refresh p
    have h6 := strDrop_refresh p
    simp [routeRequest, h1, h2, h3, h4, h5, h6]
  · intro s
    unfold routeRequest
    split_ifs with h1 h2 h3 h4 h5 <;> simp_all

/-- Witness for C2: the concrete line `REFRESH cfgjson` dispatches as a
reload carrying `cfgjson`, and the success reply is `ok`. -/
theorem refresh_routes_as_reload_witness :
    routeRequest ("REFRESH " ++ "cfgjson") = RouterDispatch.reload "cfgjson" ∧
    routerReloadReply (Except.ok ()) = "ok" :=
  ⟨refresh_routes_as_reload.1 "cfgjson", refresh_routes_as_reload.2.1⟩
